import Mathlib

/-!
Verification development for the ROM container, address translation,
reserved-block (RATS) validation, patch staging buffer and sprite
descriptor of SpriteToolSuperDelux (src/structs.cpp).

C `int` values are modelled as `Int`; byte buffers as `Nat → Fin 256`;
the file system as a partial map from paths (char lists) to contents.
-/

/-! ### Bitwise operations on `Int`

Mathlib provides `Int.land`/`Int.lor` (two's-complement semantics matching
C `&`/`|` on `int`) but no `AndOp`/`OrOp` instances; we add them. -/

instance : AndOp Int := ⟨Int.land⟩

instance : OrOp Int := ⟨Int.lor⟩

@[norm_cast] theorem natCast_land_int (m n : Nat) :
    ((m : Int) &&& (n : Int)) = ((m &&& n : Nat) : Int) := rfl

@[norm_cast] theorem natCast_lor_int (m n : Nat) :
    ((m : Int) ||| (n : Int)) = ((m ||| n : Nat) : Int) := rfl

@[norm_cast] theorem natCast_shiftLeft_int (m n : Nat) :
    ((m : Int) <<< (n : Int)) = ((m <<< n : Nat) : Int) :=
  Int.shiftLeft_coe_nat m n

@[norm_cast] theorem natCast_shiftRight_int (m n : Nat) :
    ((m : Int) >>> (n : Int)) = ((m >>> n : Nat) : Int) :=
  Int.shiftRight_coe_nat m n

/-! ### Mask arithmetic on `Nat`

A contiguous bit mask `(2^j - 1) * 2^k` turns `&&&` into div/mod
arithmetic, after which `omega` can reason about the translation
formulas. -/

theorem and_mask_shl (a j k : Nat) :
    a &&& ((2 ^ j - 1) <<< k) = ((a >>> k) % 2 ^ j) <<< k := by
  apply Nat.eq_of_testBit_eq
  intro i
  simp only [Nat.testBit_and, Nat.testBit_shiftLeft, Nat.testBit_two_pow_sub_one,
    Nat.testBit_mod_two_pow, Nat.testBit_shiftRight]
  rcases Nat.lt_or_ge i k with h | h
  · simp [Nat.not_le.mpr h]
  · simp only [ge_iff_le, h, decide_True, Bool.true_and]
    rw [Nat.add_sub_cancel' h]
    cases a.testBit i <;> simp

theorem and_mask_arith (a j k c : Nat) (hc : c = (2 ^ j - 1) * 2 ^ k) :
    a &&& c = a / 2 ^ k % 2 ^ j * 2 ^ k := by
  subst hc
  rw [← Nat.shiftLeft_eq, and_mask_shl, Nat.shiftLeft_eq, Nat.shiftRight_eq_div_pow]

theorem lor_eq_add_of_lt (a b i : Nat) (ha : a % 2 ^ i = 0) (hb : b < 2 ^ i) :
    a ||| b = a + b := by
  obtain ⟨q, hq⟩ := (Nat.dvd_of_mod_eq_zero ha)
  subst hq
  rw [← Nat.mul_add_lt_is_or hb]

/-! ### Data model: mapper types and the ROM container -/

/-- Mapper schemes recognized by the tool (spec section 3; `MapperType` is
declared in structs.h, its three values are fixed by `ROM::open`). -/
inductive MapperType
  | lorom
  | sa1rom
  | fullsa1rom
deriving DecidableEq

/-- Shallow embedding of the `ROM` container (structs.cpp): detected header
size and payload size, detected mapper, and the loaded byte buffer
`m_data` (indexed from the start of the file, header included). -/
structure ROM where
  header_size : Nat
  size : Nat
  mapper : MapperType
  data : Nat → Fin 256

/-- Modelled from the spec: the table `sa1banks` of the 8 fixed SA-1 bank
bases at 0x700000 granularity is declared in structs.h, which is not under
src/. Values follow the asar-derived convention the translation code is
taken from (structs.cpp:141 credits asar): four mappable banks at indices
0, 1, 4, 5 and -1 (never matched by a masked address) elsewhere. -/
def sa1banks : List Int := [0x000000, 0x100000, -1, -1, 0x200000, 0x300000, -1, -1]

/-- ROM::pc_to_snes (structs.cpp:142-166). The input is the raw PC file
offset (an `int`); `header_size` is subtracted first. The SA-1 branch
scans `sa1banks` for the first index whose base matches
`address & 0x700000` and falls through to -1 when none does. -/
def ROM.pc_to_snes (rom : ROM) (pc_address : Int) : Int :=
  let address := pc_address - (rom.header_size : Int)
  match rom.mapper with
  | .lorom =>
      ((address <<< 1) &&& 0x7F0000) ||| (address &&& 0x7FFF) ||| 0x8000
  | .sa1rom =>
      match (List.range 8).find? (fun i => sa1banks.getD i 0 == address &&& 0x700000) with
      | some i =>
          0x008000 ||| ((i : Int) <<< 21) ||| ((address &&& 0x0F8000) <<< 1) ||| (address &&& 0x7FFF)
      | none => -1
  | .fullsa1rom =>
      if address &&& 0x400000 = 0x400000 then
        address ||| 0xC00000
      else if address &&& 0x600000 = 0x000000 then
        ((address <<< 1) &&& 0x3F0000) ||| 0x8000 ||| (address &&& 0x7FFF)
      else if address &&& 0x600000 = 0x200000 then
        0x800000 ||| ((address <<< 1) &&& 0x3F0000) ||| 0x8000 ||| (address &&& 0x7FFF)
      else -1

/-- ROM::snes_to_pc (structs.cpp:168-197). Rejected addresses return -1
directly in the LoROM and FullSA1ROM branches; in the SA1ROM branch the
unmapped case assigns `address = -1` and then falls through to the common
`return address + header_size` (structs.cpp:180,196). -/
def ROM.snes_to_pc (rom : ROM) (snes_address : Int) : Int :=
  let address := snes_address
  match rom.mapper with
  | .lorom =>
      if address &&& 0xFE0000 = 0x7E0000 ∨ address &&& 0x408000 = 0x000000 ∨
          address &&& 0x708000 = 0x700000 then -1
      else ((address &&& 0x7F0000) >>> 1 ||| (address &&& 0x7FFF)) + (rom.header_size : Int)
  | .sa1rom =>
      if address &&& 0x408000 = 0x008000 then
        (sa1banks.getD ((address &&& 0xE00000) >>> 21).toNat 0 ||| ((address &&& 0x1F0000) >>> 1) |||
            (address &&& 0x007FFF)) + (rom.header_size : Int)
      else if address &&& 0xC00000 = 0xC00000 then
        (sa1banks.getD (((address &&& 0x100000) >>> 20) ||| ((address &&& 0x200000) >>> 19)).toNat 0 |||
            (address &&& 0x0FFFFF)) + (rom.header_size : Int)
      else (-1) + (rom.header_size : Int)
  | .fullsa1rom =>
      if address &&& 0xC00000 = 0xC00000 then
        ((address &&& 0x3FFFFF) ||| 0x400000) + (rom.header_size : Int)
      else if address &&& 0xC00000 = 0x000000 ∨ address &&& 0xC00000 = 0x800000 then
        if address &&& 0x008000 = 0x000000 then -1
        else ((address &&& 0x800000) >>> 2 ||| (address &&& 0x3F0000) >>> 1 |||
            (address &&& 0x7FFF)) + (rom.header_size : Int)
      else -1

/-! ### Opening a ROM file -/

/-- A ROM file on disk: total byte size and contents. Stands in for the
file reads performed by `ROM::open` (file_io.h collaborators). -/
structure RomFile where
  fsize : Nat
  byte : Nat → Fin 256

/-- ROM::open (structs.cpp:115-137) on the success path: the total file
size gives `header_size = size & 0x7FFF` and `size = total - header_size`;
`read_all` loads the whole file (header included) into `m_data`; the
mapper is detected from the two bytes at `header_size + 0x7FD5` and
`header_size + 0x7FD7`. (`open` is a Lean keyword, hence the suffix.) -/
def ROM.open_rom (f : RomFile) : ROM :=
  let size := f.fsize
  let header_size := size &&& 0x7FFF
  let size' := size - header_size
  let m_data := f.byte
  let mapper :=
    if m_data (header_size + 0x7fd5) = (0x23 : Fin 256) then
      if m_data (header_size + 0x7fd7) = (0x0D : Fin 256) then MapperType.fullsa1rom
      else MapperType.sa1rom
    else MapperType.lorom
  { header_size := header_size, size := size', mapper := mapper, data := m_data }

/-! ### Reserved-block (RATS) validation -/

/-- ROM::get_rats_size (structs.cpp:236-251). `pcaddr` points at the first
payload byte; the 8-byte header region before it holds the 4-byte "STAR"
tag, a little-endian `uint16_t` size and a little-endian `uint16_t`
checksum. The stored size is incremented with `uint16_t` arithmetic
(mod 2^16) before being returned. Callers pass `pcaddr ≥ 8` (a smaller
value would read before the buffer in C). -/
def ROM.get_rats_size (rom : ROM) (pcaddr : Nat) : Option Nat :=
  let addr := pcaddr - 8
  if (rom.data addr).val = 0x53 ∧ (rom.data (addr + 1)).val = 0x54 ∧
      (rom.data (addr + 2)).val = 0x41 ∧ (rom.data (addr + 3)).val = 0x52 then
    let addr' := addr + 4
    let tag_size := (rom.data addr').val ||| ((rom.data (addr' + 1)).val <<< 8)
    let chksum := (rom.data (addr' + 2)).val ||| ((rom.data (addr' + 3)).val <<< 8)
    if tag_size ^^^ 0xFFFF = chksum then some ((tag_size + 1) % 0x10000)
    else none
  else none

/-! ### Sprite descriptor

The `sprite` aggregate and the small value types it contains are declared
in structs.h (not under src/); their fields are modelled from the spec
(section 3, SpriteDescriptor) and from the uses in structs.cpp
(`sprite::print`, `sprite::clear`). -/

/-- Modelled from the spec: the raw 24-bit cartridge pointer value type
declared in structs.h (bank : bits 16-23, high : 8-15, low : 0-7); only
its value identity matters here. -/
structure pointer where
  addr : Nat
deriving DecidableEq

/-- Modelled from the spec: RTL_BANK (structs.h), the bank byte of the
fixed default sentinel pointer. The claims do not depend on the numeric
value; 0x01 matches the RTL instruction location the tool points unused
sprite slots at. -/
def RTL_BANK : Nat := 0x01

/-- Modelled from the spec: RTL_HIGH (structs.h), see RTL_BANK. -/
def RTL_HIGH : Nat := 0x80

/-- Modelled from the spec: RTL_LOW (structs.h), see RTL_BANK. -/
def RTL_LOW : Nat := 0x21

/-- DEFAULT_PTR (structs.cpp:323): the fixed default sentinel pointer
`(RTL_BANK << 16) | (RTL_HIGH << 8) | RTL_LOW`. -/
def DEFAULT_PTR : pointer := ⟨(RTL_BANK <<< 16) ||| (RTL_HIGH <<< 8) ||| RTL_LOW⟩

/-- Modelled from the spec: pointer::is_empty (structs.h) holds exactly
when the pointer equals the fixed default sentinel. -/
def pointer.is_empty (p : pointer) : Bool := p == DEFAULT_PTR

/-- Modelled from the spec: the fixed-size sprite table row (type,
act-like id, 6 tweak bytes, init/main pointers, 2 extra bytes). -/
structure sprite_table where
  type : Fin 256
  actlike : Fin 256
  tweak : Fin 6 → Fin 256
  init : pointer
  main : pointer
  extra : Fin 2 → Fin 256

/-- Modelled from the spec: the five default-valued pointer fields. -/
structure sprite_ptrs where
  carriable : pointer
  carried : pointer
  goal : pointer
  kicked : pointer
  mouth : pointer

/-- Modelled from the spec: one 8x8 tile of a map16 entry. -/
structure map8 where
  tile : Fin 256
  prop : Fin 256

/-- Modelled from the spec: one 16x16 tile map entry. -/
structure map16 where
  top_left : map8
  bottom_left : map8
  top_right : map8
  bottom_right : map8

/-- Modelled from the spec: one tile of a display entry, either a literal
tile number or free text. -/
structure display_tile where
  x_offset : Int
  y_offset : Int
  text : List Char
  tile_number : Nat

/-- Modelled from the spec: a positioned display entry. -/
structure display where
  x_or_index : Int
  y_or_value : Int
  extra_bit : Bool
  description : List Char
  tiles : List display_tile

/-- Modelled from the spec: a named collection entry with property
bytes. -/
structure collection where
  extra_bit : Bool
  prop : Nat → Fin 256
  name : List Char

/-- Modelled from the spec: how a display is addressed (structs.h). -/
inductive display_type
  | XYPosition
  | ExtensionByte
deriving DecidableEq

/-- Modelled from the spec: which sprite list a descriptor belongs to
(structs.h). -/
inductive ListType
  | Sprite
  | Extended
  | Cluster
deriving DecidableEq

/-- Modelled from the spec: the sprite descriptor aggregate (structs.h);
exactly the fields read by `sprite::print` and reset by
`sprite::clear` (structs.cpp). -/
structure sprite where
  line : Nat
  number : Nat
  level : Nat
  table : sprite_table
  ptrs : sprite_ptrs
  extended_cape_ptr : pointer
  byte_count : Nat
  extra_byte_count : Nat
  directory : List Char
  asm_file : List Char
  cfg_file : List Char
  map_data : List map16
  disp_type : display_type
  displays : List display
  collections : List collection
  sprite_type : ListType

/-- sprite::clear (structs.cpp:324-358): numeric fields to 0, level to the
0x200 "no level" default, every pointer field to DEFAULT_PTR, strings and
collections to empty. -/
def sprite.clear (s : sprite) : sprite :=
  { s with
    line := 0
    number := 0
    level := 0x200
    table := { type := 0, actlike := 0, tweak := fun _ => 0,
               init := DEFAULT_PTR, main := DEFAULT_PTR, extra := fun _ => 0 }
    ptrs := { carriable := DEFAULT_PTR, carried := DEFAULT_PTR, goal := DEFAULT_PTR,
              kicked := DEFAULT_PTR, mouth := DEFAULT_PTR }
    extended_cape_ptr := DEFAULT_PTR
    byte_count := 0
    extra_byte_count := 0
    directory := []
    asm_file := []
    cfg_file := []
    map_data := []
    disp_type := .XYPosition
    displays := []
    collections := []
    sprite_type := .Sprite }

/-- sprite::has_empty_table (structs.cpp:265-267). -/
def sprite.has_empty_table (s : sprite) : Bool :=
  s.table.init.is_empty && s.table.main.is_empty

/-- Free function is_empty_table (structs.cpp:257-263), mirroring the
loop exactly: it returns false as soon as a sprite satisfies
`has_empty_table`, and true when the span is exhausted. -/
def is_empty_table : List sprite → Bool
  | [] => true
  | s :: rest => if s.has_empty_table then false else is_empty_table rest

/-- A concrete sprite value used for evaluations (all fields zeroed). -/
def sprite.blank : sprite :=
  { line := 0, number := 0, level := 0
    table := { type := 0, actlike := 0, tweak := fun _ => 0,
               init := ⟨0⟩, main := ⟨0⟩, extra := fun _ => 0 }
    ptrs := { carriable := ⟨0⟩, carried := ⟨0⟩, goal := ⟨0⟩, kicked := ⟨0⟩, mouth := ⟨0⟩ }
    extended_cape_ptr := ⟨0⟩
    byte_count := 0, extra_byte_count := 0
    directory := [], asm_file := [], cfg_file := []
    map_data := [], disp_type := .XYPosition, displays := [], collections := []
    sprite_type := .Sprite }

/-! ### Patch staging buffer

`std::string` values are modelled as `List Char`; the file system as a
partial map from paths to file contents. The keep flags
(`patchfile::s_pixi_keep`, `patchfile::s_meimei_keep`, set once by
`patchfile::set_keep`) are passed explicitly to the destructor model. -/

/-- The snapshot view handed to the external patch engine (memoryfile,
asar interface): buffer contents, length and path. `make_unique`
value-initializes it to null/0/null, modelled as empty values. -/
structure memoryfile where
  buffer : List Char
  length : Nat
  path : List Char

/-- Which tool a patchfile originates from (`patchfile::origin`). -/
inductive origin
  | pixi
  | meimei
deriving DecidableEq

/-- Shallow embedding of `patchfile` (structs.cpp): target path in original
casing, lower-cased copy, the growable accumulator stream, the snapshot
string `m_data`, the snapshot view, origin and binary flags. -/
structure patchfile where
  m_fs_path : List Char
  m_path : List Char
  m_data_stream : List Char
  m_data : List Char
  m_vfile : memoryfile
  m_from_meimei : Bool
  m_binary : Bool

/-- patchfile constructor (structs.cpp:24-30): stores the path, makes an
empty value-initialized snapshot, records the origin, and lower-cases the
path character by character. The open-mode argument is reduced to its
binary bit, the only part the model uses. -/
def patchfile.construct (path : List Char) (binary : Bool) (orig : origin) : patchfile :=
  { m_fs_path := path
    m_path := path.map Char.toLower
    m_data_stream := []
    m_data := []
    m_vfile := { buffer := [], length := 0, path := [] }
    m_from_meimei := orig = origin.meimei
    m_binary := binary }

/-- patchfile move constructor (structs.cpp:32-40): every field is moved,
then the snapshot is re-pointed at the destination's own `m_data` and
`m_path` (modelled at the value level). -/
def patchfile.move_ctor (other : patchfile) : patchfile :=
  { m_fs_path := other.m_fs_path
    m_path := other.m_path
    m_data_stream := other.m_data_stream
    m_data := other.m_data
    m_vfile := { buffer := other.m_data, length := other.m_data.length, path := other.m_path }
    m_from_meimei := other.m_from_meimei
    m_binary := other.m_binary }

/-- patchfile::fprintf (structs.cpp:47-59): the formatted text (formatting
itself is done by vsnprintf, an external collaborator; the model receives
the already-formatted characters) is appended to the stream, never
truncated. -/
def patchfile.fprintf_fmt (pf : patchfile) (formatted : List Char) : patchfile :=
  { pf with m_data_stream := pf.m_data_stream ++ formatted }

/-- patchfile::fwrite (structs.cpp:61-67): raw bytes appended verbatim. -/
def patchfile.fwrite (pf : patchfile) (bindata : List Char) : patchfile :=
  { pf with m_data_stream := pf.m_data_stream ++ bindata }

/-- patchfile::close (structs.cpp:69-74): snapshot the accumulated stream
into `m_data` and re-point the view at it. -/
def patchfile.close (pf : patchfile) : patchfile :=
  { pf with
    m_data := pf.m_data_stream
    m_vfile := { buffer := pf.m_data_stream, length := pf.m_data_stream.length,
                 path := pf.m_path } }

/-- One append operation performed between construction and close. -/
inductive PatchOp
  | fmt (formatted : List Char)
  | raw (bindata : List Char)

/-- Apply a sequence of append operations. -/
def patchfile.applyOps (pf : patchfile) (ops : List PatchOp) : patchfile :=
  ops.foldl (fun pf op => match op with
    | .fmt s => pf.fprintf_fmt s
    | .raw b => pf.fwrite b) pf

/-- The file system as seen by the destructor: maps a path to the file
contents, if a file exists there. -/
def FileSystem : Type := List Char → Option (List Char)

/-- patchfile destructor (structs.cpp:76-91): does nothing for an empty
path; with the origin's keep flag set, writes `m_vfile->length` bytes of
`m_vfile->buffer` to `m_fs_path` (replacing any existing file; the
fopen-failure path is not modelled); with it unset, removes the file at
`m_fs_path` if one exists. -/
def patchfile.destruct (pf : patchfile) (s_pixi_keep s_meimei_keep : Bool)
    (fs : FileSystem) : FileSystem :=
  if pf.m_path = [] then fs
  else if (if pf.m_from_meimei then s_meimei_keep else s_pixi_keep) then
    fun q => if q = pf.m_fs_path then some (pf.m_vfile.buffer.take pf.m_vfile.length) else fs q
  else if (fs pf.m_fs_path).isSome then
    fun q => if q = pf.m_fs_path then none else fs q
  else fs

/-- The snapshot view is self-consistent: it exposes exactly the object's
own accumulated data, that data's size, and the object's own lower-cased
path (claim C10's invariant, stated at the value level). -/
def patchfile.vfile_consistent (pf : patchfile) : Prop :=
  pf.m_vfile.buffer = pf.m_data ∧ pf.m_vfile.length = pf.m_data.length ∧
    pf.m_vfile.path = pf.m_path

/-! ### Helper lemmas -/

theorem patchfile.applyOps_fields (pf : patchfile) (ops : List PatchOp) :
    (pf.applyOps ops).m_fs_path = pf.m_fs_path ∧ (pf.applyOps ops).m_path = pf.m_path ∧
    (pf.applyOps ops).m_from_meimei = pf.m_from_meimei := by
  induction ops generalizing pf with
  | nil => exact ⟨rfl, rfl, rfl⟩
  | cons op rest ih =>
      cases op with
      | fmt s => exact ih (pf.fprintf_fmt s)
      | raw b => exact ih (pf.fwrite b)

/-! ### Concrete containers used by evaluations -/

/-- A headered (512-byte copier header) SA-1 ROM container, as produced by
`ROM::open` on a 0x100200-byte file carrying the 0x23 SA-1 marker. -/
def romC1 : ROM :=
  { header_size := 512, size := 0x100000, mapper := .sa1rom,
    data := fun i => if i = 512 + 0x7fd5 then 0x23 else 0 }

/-- An unheadered 4 MiB LoROM container. -/
def romC2 : ROM := { header_size := 0, size := 0x400000, mapper := .lorom, data := fun _ => 0 }

/-- An unheadered 9 MiB SA-1 ROM container (oversized payload), as
produced by `ROM::open` on a 0x900000-byte file with the SA-1 marker. -/
def romC6 : ROM :=
  { header_size := 0, size := 0x900000, mapper := .sa1rom,
    data := fun i => if i = 0x7fd5 then 0x23 else 0 }

/-- A headered 4 MiB SA-1 ROM container, as produced by `ROM::open` on a
0x400200-byte file with the SA-1 marker. -/
def romW6 : ROM :=
  { header_size := 512, size := 0x400000, mapper := .sa1rom,
    data := fun i => if i = 512 + 0x7fd5 then 0x23 else 0 }

/-! ### Claim theorems -/

/-- C1: the claim that `ROM::snes_to_pc` returns the -1 sentinel for every
unmapped SNES address regardless of `header_size` is falsified by the
code: under SA1ROM, SNES address 0x000000 is unmapped (it fails both SA-1
branch conditions), yet on a container with `header_size = 512` the
function returns -1 + 512 = 511 (structs.cpp:180 assigns `address = -1`
and falls through to the common `return address + header_size`). -/
theorem C1_sa1rom_unmapped_eval :
    ((0 : Int) &&& 0x408000 ≠ 0x008000) ∧ ((0 : Int) &&& 0xC00000 ≠ 0xC00000) ∧
    romC1.snes_to_pc 0 = 511 := by decide

/-- C3: evaluation showing `is_empty_table` inverts the claimed
conjunction (structs.cpp:257-263 returns false as soon as a sprite HAS an
empty table): a one-sprite span whose sprite has an empty table yields
false, and a one-sprite span whose sprite has a non-empty table yields
true — the opposite of the claim on both sides. -/
theorem C3_is_empty_table_eval :
    (sprite.blank.clear).has_empty_table = true ∧
    is_empty_table [sprite.blank.clear] = false ∧
    sprite.blank.has_empty_table = false ∧
    is_empty_table [sprite.blank] = true := by
  refine ⟨rfl, rfl, ?_, rfl⟩
  decide

/-- C5: the detected mapper of every successfully opened ROM is determined
exactly by the two loaded-buffer bytes at `header_size + 0x7FD5` and
`header_size + 0x7FD7`: 0x23/0x0D selects FullSA1ROM, 0x23/other selects
SA1ROM, and anything else selects LoROM (structs.cpp:128-136). -/
theorem C5_mapper_detection (f : RomFile) :
    ((ROM.open_rom f).data ((ROM.open_rom f).header_size + 0x7FD5) = (0x23 : Fin 256) →
      (ROM.open_rom f).data ((ROM.open_rom f).header_size + 0x7FD7) = (0x0D : Fin 256) →
      (ROM.open_rom f).mapper = .fullsa1rom) ∧
    ((ROM.open_rom f).data ((ROM.open_rom f).header_size + 0x7FD5) = (0x23 : Fin 256) →
      (ROM.open_rom f).data ((ROM.open_rom f).header_size + 0x7FD7) ≠ (0x0D : Fin 256) →
      (ROM.open_rom f).mapper = .sa1rom) ∧
    ((ROM.open_rom f).data ((ROM.open_rom f).header_size + 0x7FD5) ≠ (0x23 : Fin 256) →
      (ROM.open_rom f).mapper = .lorom) := by
  unfold ROM.open_rom
  refine ⟨fun h1 h2 => ?_, fun h1 h2 => ?_, fun h1 => ?_⟩ <;> simp_all

/-- C5 witness: a file whose marker bytes are 0x23 and 0x0D opens as
FullSA1ROM. -/
theorem C5_mapper_detection_witness :
    (ROM.open_rom ⟨0x100000, fun i => if i = 0x7FD5 then 0x23 else if i = 0x7FD7 then 0x0D else 0⟩).mapper
      = .fullsa1rom :=
  (C5_mapper_detection ⟨0x100000, fun i => if i = 0x7FD5 then 0x23 else if i = 0x7FD7 then 0x0D else 0⟩).1
    (by decide) (by decide)

/-- C8: for every opened file of total size N, `header_size = N mod 0x8000`
and `size = N - header_size` (structs.cpp:121-123); in particular a
0x100200-byte file yields 512 and a 0x100000-byte file yields 0. -/
theorem C8_header_size (f : RomFile) :
    (ROM.open_rom f).header_size = f.fsize % 0x8000 ∧
    (ROM.open_rom f).size = f.fsize - f.fsize % 0x8000 ∧
    (f.fsize = 0x100200 → (ROM.open_rom f).header_size = 512) ∧
    (f.fsize = 0x100000 → (ROM.open_rom f).header_size = 0) := by
  have h : f.fsize &&& 0x7FFF = f.fsize % 0x8000 := by
    have h15 := Nat.and_pow_two_sub_one_eq_mod f.fsize 15
    norm_num at h15
    exact h15
  unfold ROM.open_rom
  dsimp only
  refine ⟨h, by rw [h], fun hN => ?_, fun hN => ?_⟩ <;> rw [hN] <;> decide

/-- C8 witness: the two concrete file sizes from the claim. -/
theorem C8_header_size_witness :
    (ROM.open_rom ⟨0x100200, fun _ => 0⟩).header_size = 512 ∧
    (ROM.open_rom ⟨0x100000, fun _ => 0⟩).header_size = 0 :=
  ⟨(C8_header_size ⟨0x100200, fun _ => 0⟩).2.2.1 rfl,
   (C8_header_size ⟨0x100000, fun _ => 0⟩).2.2.2 rfl⟩

/-- C9: `sprite::clear` sets both table pointers to DEFAULT_PTR so
`has_empty_table` holds afterwards, and replacing either the init or the
main pointer of a cleared sprite by any non-sentinel value makes
`has_empty_table` false (structs.cpp:265-267, 324-358). -/
theorem C9_clear_then_empty (s : sprite) (p : pointer) (hp : p ≠ DEFAULT_PTR) :
    (s.clear).has_empty_table = true ∧
    (sprite.has_empty_table { s.clear with table := { s.clear.table with init := p } }) = false ∧
    (sprite.has_empty_table { s.clear with table := { s.clear.table with main := p } }) = false := by
  refine ⟨rfl, ?_, ?_⟩ <;>
    simp [sprite.has_empty_table, sprite.clear, pointer.is_empty, beq_iff_eq, hp]

/-- C9 witness: the zero pointer is not the sentinel; instantiating the
theorem at a concrete sprite. -/
theorem C9_clear_then_empty_witness :
    (sprite.blank.clear).has_empty_table = true ∧
    (sprite.has_empty_table
      { sprite.blank.clear with table := { sprite.blank.clear.table with init := ⟨0⟩ } }) = false :=
  ⟨(C9_clear_then_empty sprite.blank ⟨0⟩ (by decide)).1,
   (C9_clear_then_empty sprite.blank ⟨0⟩ (by decide)).2.1⟩

/-- C10: the move constructor re-points the snapshot view at the
destination's own accumulated data, size and lower-cased path, and
`patchfile::close` establishes the same self-consistency
(structs.cpp:32-40, 69-74). -/
theorem C10_move_and_close_consistent (pf : patchfile) :
    (pf.move_ctor).vfile_consistent ∧ (pf.close).vfile_consistent :=
  ⟨⟨rfl, rfl, rfl⟩, ⟨rfl, rfl, rfl⟩⟩

/-- C7: a patchfile constructed with a non-empty path, appended to and
finalized, then destroyed: with its origin's keep flag set, the file at
the target path holds exactly the finalized bytes; with the flag unset,
no file is created when none exists and an existing file is removed
(structs.cpp:24-30, 47-74, 76-91). -/
theorem C7_patchfile_lifecycle (path : List Char) (hpath : path ≠ [])
    (binary : Bool) (orig : origin) (ops : List PatchOp)
    (s_pixi_keep s_meimei_keep : Bool) (fs : FileSystem) :
    ((if orig = origin.meimei then s_meimei_keep else s_pixi_keep) = true →
      (((patchfile.construct path binary orig).applyOps ops).close).destruct
          s_pixi_keep s_meimei_keep fs path
        = some ((((patchfile.construct path binary orig).applyOps ops).close).m_data)) ∧
    ((if orig = origin.meimei then s_meimei_keep else s_pixi_keep) = false →
      fs path = none →
      (((patchfile.construct path binary orig).applyOps ops).close).destruct
          s_pixi_keep s_meimei_keep fs path = none) ∧
    ((if orig = origin.meimei then s_meimei_keep else s_pixi_keep) = false →
      (fs path).isSome = true →
      (((patchfile.construct path binary orig).applyOps ops).close).destruct
          s_pixi_keep s_meimei_keep fs path = none) := by
  obtain ⟨hfs, hmp, hmm⟩ := patchfile.applyOps_fields (patchfile.construct path binary orig) ops
  refine ⟨fun hkeep => ?_, fun hkeep hnone => ?_, fun hkeep hsome => ?_⟩ <;>
    cases orig <;>
      simp_all [patchfile.destruct, patchfile.close, patchfile.construct,
        List.take_length, List.map_eq_nil_iff]

/-- C7 witness: a pixi-origin patchfile with formatted and raw appends,
kept, produces exactly the finalized bytes. -/
theorem C7_patchfile_lifecycle_witness :
    (((patchfile.construct [Char.ofNat 97] true origin.pixi).applyOps
        [PatchOp.fmt [Char.ofNat 104, Char.ofNat 105], PatchOp.raw [Char.ofNat 120]]).close).destruct
        true false (fun _ => none) [Char.ofNat 97]
      = some [Char.ofNat 104, Char.ofNat 105, Char.ofNat 120] :=
  ((C7_patchfile_lifecycle [Char.ofNat 97] (by decide) true origin.pixi
      [PatchOp.fmt [Char.ofNat 104, Char.ofNat 105], PatchOp.raw [Char.ofNat 120]]
      true false (fun _ => none)).1 (by decide)).trans (by decide)

/-- The bytes of the claim's example RATS block: tag "STAR", size 0x0004
(LE bytes 04 00), checksum 0xFFFB (LE bytes FB FF). -/
def ratsBytes : Nat → Fin 256 := fun i =>
  match i with
  | 0 => 0x53 | 1 => 0x54 | 2 => 0x41 | 3 => 0x52
  | 4 => 0x04 | 5 => 0x00 | 6 => 0xFB | 7 => 0xFF
  | _ => 0

/-- A ROM holding the example RATS block at offset 0. -/
def ratsRom : ROM := { header_size := 0, size := 0x8000, mapper := .lorom, data := ratsBytes }

/-- A ROM holding a well-formed RATS block with stored size 0xFFFF
(checksum 0x0000). -/
def ratsRomFF : ROM :=
  { header_size := 0, size := 0x8000, mapper := .lorom,
    data := fun i =>
      match i with
      | 0 => 0x53 | 1 => 0x54 | 2 => 0x41 | 3 => 0x52
      | 4 => 0xFF | 5 => 0xFF | 6 => 0x00 | 7 => 0x00
      | _ => 0 }

/-- C4 counterexample: on a well-formed block whose stored size is 0xFFFF
the code returns `some 0` (`uint16_t` wraparound of `tag_size += 1`,
structs.cpp:249), not `size + 1 = 0x10000` as the claim states. -/
theorem C4_counterexample :
    ratsRomFF.get_rats_size 8 = some 0 ∧ ratsRomFF.get_rats_size 8 ≠ some (0xFFFF + 1) := by
  decide

/-- C4 (amended): `get_rats_size p` is absent when the 4 bytes at p-8 are
not "STAR", absent when the LE 16-bit checksum at p-2 differs from the LE
16-bit size at p-4 XOR 0xFFFF, and otherwise returns
`(size + 1) mod 0x10000` (the stored size is incremented in `uint16_t`
arithmetic); the claim's example block yields 5, and mutating any single
byte of the tag or the checksum yields absent (structs.cpp:236-251). -/
theorem C4_get_rats_size (rom : ROM) (p : Nat) (hp : 8 ≤ p) :
    (¬ ((rom.data (p - 8)).val = 0x53 ∧ (rom.data (p - 7)).val = 0x54 ∧
        (rom.data (p - 6)).val = 0x41 ∧ (rom.data (p - 5)).val = 0x52) →
      rom.get_rats_size p = none) ∧
    ((rom.data (p - 2)).val ||| ((rom.data (p - 1)).val <<< 8) ≠
        (((rom.data (p - 4)).val ||| ((rom.data (p - 3)).val <<< 8)) ^^^ 0xFFFF) →
      rom.get_rats_size p = none) ∧
    (((rom.data (p - 8)).val = 0x53 ∧ (rom.data (p - 7)).val = 0x54 ∧
        (rom.data (p - 6)).val = 0x41 ∧ (rom.data (p - 5)).val = 0x52) →
      (rom.data (p - 2)).val ||| ((rom.data (p - 1)).val <<< 8) =
        (((rom.data (p - 4)).val ||| ((rom.data (p - 3)).val <<< 8)) ^^^ 0xFFFF) →
      rom.get_rats_size p =
        some ((((rom.data (p - 4)).val ||| ((rom.data (p - 3)).val <<< 8)) + 1) % 0x10000)) ∧
    ratsRom.get_rats_size 8 = some 5 ∧
    (∀ j : Fin 8, (j.val < 4 ∨ 6 ≤ j.val) → ∀ v : Fin 256, v ≠ ratsBytes j.val →
      ROM.get_rats_size
        { ratsRom with data := fun i => if i = j.val then v else ratsBytes i } 8 = none) := by
  have e1 : p - 8 + 1 = p - 7 := by omega
  have e2 : p - 8 + 2 = p - 6 := by omega
  have e3 : p - 8 + 3 = p - 5 := by omega
  have e4 : p - 8 + 4 = p - 4 := by omega
  have e5 : p - 8 + 4 + 1 = p - 3 := by omega
  have e6 : p - 8 + 4 + 2 = p - 2 := by omega
  have e7 : p - 8 + 4 + 3 = p - 1 := by omega
  refine ⟨?_, ?_, ?_, by decide, ?_⟩
  · intro h1
    unfold ROM.get_rats_size
    dsimp only
    rw [e1, e2, e3, e5, e6, e7, e4]
    rw [if_neg h1]
  · intro hne
    unfold ROM.get_rats_size
    dsimp only
    rw [e1, e2, e3, e5, e6, e7, e4]
    by_cases h1 : (rom.data (p - 8)).val = 0x53 ∧ (rom.data (p - 7)).val = 0x54 ∧
        (rom.data (p - 6)).val = 0x41 ∧ (rom.data (p - 5)).val = 0x52
    · rw [if_pos h1, if_neg (fun h => hne h.symm)]
    · rw [if_neg h1]
  · intro h1 h2
    unfold ROM.get_rats_size
    dsimp only
    rw [e1, e2, e3, e5, e6, e7, e4]
    rw [if_pos h1, if_pos h2.symm]
  · set_option maxRecDepth 4000 in decide

/-- C4 witness: instantiating the amended theorem recovers the claim's
example value 5. -/
theorem C4_get_rats_size_witness : ratsRom.get_rats_size 8 = some 5 :=
  (C4_get_rats_size ratsRom 8 (by decide)).2.2.2.1

/-- C2 counterexample: on an unheadered 4 MiB LoROM, PC offset 0x3F0000
lies in the payload range but translates to SNES 0x7E8000, which
`snes_to_pc` rejects as a WRAM-mirror address, so the round trip returns
-1 instead of the original offset. -/
theorem C2_counterexample :
    romC2.mapper = .lorom ∧
    (romC2.header_size : Int) ≤ 0x3F0000 ∧
    (0x3F0000 : Int) < (romC2.header_size : Int) + (romC2.size : Int) ∧
    romC2.snes_to_pc (romC2.pc_to_snes 0x3F0000) ≠ 0x3F0000 := by decide

/-- Core LoROM round-trip computation on `Nat`: for an unheadered address
below 0x3F0000, the SNES image passes all three rejection checks and the
inverse formula recovers the address. -/
theorem lorom_core (n : Nat) (h : n < 0x3F0000) :
    ((((n <<< 1) &&& 0x7F0000) ||| (n &&& 0x7FFF) ||| 0x8000) &&& 0xFE0000 ≠ 0x7E0000) ∧
    ((((n <<< 1) &&& 0x7F0000) ||| (n &&& 0x7FFF) ||| 0x8000) &&& 0x408000 ≠ 0x000000) ∧
    ((((n <<< 1) &&& 0x7F0000) ||| (n &&& 0x7FFF) ||| 0x8000) &&& 0x708000 ≠ 0x700000) ∧
    (((((n <<< 1) &&& 0x7F0000) ||| (n &&& 0x7FFF) ||| 0x8000) &&& 0x7F0000) >>> 1 |||
      ((((n <<< 1) &&& 0x7F0000) ||| (n &&& 0x7FFF) ||| 0x8000) &&& 0x7FFF)) = n := by
  have hsl : n <<< 1 = 2 * n := by rw [Nat.shiftLeft_eq]; ring
  rw [hsl,
      and_mask_arith (2 * n) 7 16 0x7F0000 (by norm_num),
      and_mask_arith n 15 0 0x7FFF (by norm_num)]
  set A := 2 * n / 2 ^ 16 % 2 ^ 7 * 2 ^ 16 with hA
  set B := n / 2 ^ 0 % 2 ^ 15 * 2 ^ 0 with hB
  have hs : (A ||| B ||| 0x8000) = A + (0x8000 + B) := by
    rw [Nat.lor_assoc, Nat.lor_comm B 0x8000,
        lor_eq_add_of_lt 0x8000 B 15 (by omega) (by omega),
        lor_eq_add_of_lt A (0x8000 + B) 16 (by omega) (by omega)]
  rw [hs]
  set s := A + (0x8000 + B) with hsv
  refine ⟨?_, ?_, ?_, ?_⟩
  · rw [and_mask_arith s 7 17 0xFE0000 (by norm_num)]
    omega
  · rw [show (0x408000 : Nat) = 0x400000 ||| 0x8000 by decide,
        Nat.and_or_distrib_left,
        and_mask_arith s 1 22 0x400000 (by norm_num),
        and_mask_arith s 1 15 0x8000 (by norm_num),
        lor_eq_add_of_lt (s / 2 ^ 22 % 2 ^ 1 * 2 ^ 22) (s / 2 ^ 15 % 2 ^ 1 * 2 ^ 15) 16
          (by omega) (by omega)]
    omega
  · rw [show (0x708000 : Nat) = 0x700000 ||| 0x8000 by decide,
        Nat.and_or_distrib_left,
        and_mask_arith s 3 20 0x700000 (by norm_num),
        and_mask_arith s 1 15 0x8000 (by norm_num),
        lor_eq_add_of_lt (s / 2 ^ 20 % 2 ^ 3 * 2 ^ 20) (s / 2 ^ 15 % 2 ^ 1 * 2 ^ 15) 16
          (by omega) (by omega)]
    omega
  · rw [and_mask_arith s 7 16 0x7F0000 (by norm_num),
        and_mask_arith s 15 0 0x7FFF (by norm_num),
        Nat.shiftRight_eq_div_pow]
    have hL : s / 2 ^ 16 % 2 ^ 7 * 2 ^ 16 / 2 ^ 1 = s / 2 ^ 16 % 2 ^ 7 * 2 ^ 15 := by omega
    rw [hL,
        lor_eq_add_of_lt (s / 2 ^ 16 % 2 ^ 7 * 2 ^ 15) (s / 2 ^ 0 % 2 ^ 15 * 2 ^ 0) 15
          (by omega) (by omega)]
    omega

/-- Bridging lemma: pc_to_snes on a LoROM at PC offset `header_size + n`
equals the `Nat`-level LoROM formula. -/
theorem pc_to_snes_lorom_nat (rom : ROM) (hm : rom.mapper = .lorom) (n : Nat) :
    rom.pc_to_snes ((n : Int) + (rom.header_size : Int)) =
      ((((n <<< 1) &&& 0x7F0000) ||| (n &&& 0x7FFF) ||| 0x8000 : Nat) : Int) := by
  unfold ROM.pc_to_snes
  rw [hm]
  dsimp only
  rw [add_sub_cancel_right]
  rfl

/-- Bridging lemma: snes_to_pc on a LoROM at a `Nat` SNES address that
passes the three rejection checks equals the inverse formula plus
`header_size`. -/
theorem snes_to_pc_lorom_nat (rom : ROM) (hm : rom.mapper = .lorom) (s : Nat)
    (r1 : s &&& 0xFE0000 ≠ 0x7E0000) (r2 : s &&& 0x408000 ≠ 0x000000)
    (r3 : s &&& 0x708000 ≠ 0x700000) :
    rom.snes_to_pc (s : Int) =
      (((s &&& 0x7F0000) >>> 1 ||| (s &&& 0x7FFF) : Nat) : Int) + (rom.header_size : Int) := by
  unfold ROM.snes_to_pc
  rw [hm]
  dsimp only
  rw [if_neg]
  · rfl
  · rintro (h | h | h)
    · exact r1 (by exact_mod_cast h)
    · exact r2 (by exact_mod_cast h)
    · exact r3 (by exact_mod_cast h)

/-- C2 (amended): on a LoROM the round trip `snes_to_pc (pc_to_snes p) = p`
holds for every PC offset p in the payload range with
`p - header_size < 0x3F0000`; from that boundary on, the forward
translation lands in the rejected WRAM-mirror banks (or truncates), as the
counterexample shows. -/
theorem C2_lorom_roundtrip (rom : ROM) (p : Int)
    (hm : rom.mapper = .lorom)
    (h1 : (rom.header_size : Int) ≤ p)
    (h2 : p < (rom.header_size : Int) + (rom.size : Int))
    (h3 : p - (rom.header_size : Int) < 0x3F0000) :
    rom.snes_to_pc (rom.pc_to_snes p) = p := by
  obtain ⟨n, hn⟩ : ∃ n : Nat, p = (n : Int) + (rom.header_size : Int) :=
    ⟨(p - (rom.header_size : Int)).toNat, by omega⟩
  have hlt : n < 0x3F0000 := by omega
  obtain ⟨r1, r2, r3, hrec⟩ := lorom_core n hlt
  rw [hn, pc_to_snes_lorom_nat rom hm n,
      snes_to_pc_lorom_nat rom hm _ r1 r2 r3, hrec]

/-- C2 witness: a headered 32 KiB LoROM round-trips a payload offset. -/
theorem C2_lorom_roundtrip_witness :
    ROM.snes_to_pc ⟨512, 0x8000, .lorom, fun _ => 0⟩
        (ROM.pc_to_snes ⟨512, 0x8000, .lorom, fun _ => 0⟩ 0x1234) = 0x1234 :=
  C2_lorom_roundtrip ⟨512, 0x8000, .lorom, fun _ => 0⟩ 0x1234 rfl
    (by decide) (by decide) (by decide)

/-- Core SA-1 computation on `Nat`: decompose the unheadered address as
`n = d * 2^20 + e * 2^15 + r` with matched bank `d < 4`; the SA-1 bank
index is `i = d/2*4 + d%2` (indices 0, 1, 4, 5) and the SNES image
`s = 0x8000 | (i << 21) | ((n & 0x0F8000) << 1) | (n & 0x7FFF)` satisfies
the mapped-branch condition of `snes_to_pc` and inverts back to `n`. -/
theorem sa1_core (n d e r i b s : Nat)
    (hn : n = d * 2 ^ 20 + e * 2 ^ 15 + r) (hd : d < 4) (he : e < 32) (hr : r < 2 ^ 15)
    (hi : i = d / 2 * 4 + d % 2) (hb : b = d * 2 ^ 20)
    (hs : s = 0x8000 ||| (i <<< 21) ||| ((n &&& 0x0F8000) <<< 1) ||| (n &&& 0x7FFF)) :
    s &&& 0x408000 = 0x008000 ∧
    (s &&& 0xE00000) >>> 21 = i ∧
    (s &&& 0x1F0000) >>> 1 = e * 2 ^ 15 ∧
    s &&& 0x7FFF = r ∧
    (b ||| e * 2 ^ 15 ||| r) = n := by
  have hB : n &&& 0x0F8000 = e * 2 ^ 15 := by
    rw [and_mask_arith n 5 15 0x0F8000 (by norm_num)]; omega
  have hC : n &&& 0x7FFF = r := by
    rw [and_mask_arith n 15 0 0x7FFF (by norm_num)]; omega
  rw [hB, hC] at hs
  have hsl1 : i <<< 21 = i * 2 ^ 21 := Nat.shiftLeft_eq i 21
  have hsl2 : (e * 2 ^ 15) <<< 1 = e * 2 ^ 16 := by rw [Nat.shiftLeft_eq]; ring
  rw [hsl1, hsl2] at hs
  rw [Nat.lor_comm 0x8000 (i * 2 ^ 21), Nat.lor_assoc (i * 2 ^ 21) 0x8000 (e * 2 ^ 16),
      Nat.lor_comm 0x8000 (e * 2 ^ 16), Nat.lor_assoc (i * 2 ^ 21) (e * 2 ^ 16 ||| 0x8000) r,
      Nat.lor_assoc (e * 2 ^ 16) 0x8000 r] at hs
  rw [lor_eq_add_of_lt 0x8000 r 15 (by omega) (by omega)] at hs
  rw [lor_eq_add_of_lt (e * 2 ^ 16) (0x8000 + r) 16 (by omega) (by omega)] at hs
  rw [lor_eq_add_of_lt (i * 2 ^ 21) (e * 2 ^ 16 + (0x8000 + r)) 21 (by omega) (by omega)] at hs
  refine ⟨?_, ?_, ?_, ?_, ?_⟩
  · rw [show (0x408000 : Nat) = 0x400000 ||| 0x8000 by decide, Nat.and_or_distrib_left,
        and_mask_arith s 1 22 0x400000 (by norm_num),
        and_mask_arith s 1 15 0x8000 (by norm_num),
        lor_eq_add_of_lt (s / 2 ^ 22 % 2 ^ 1 * 2 ^ 22) (s / 2 ^ 15 % 2 ^ 1 * 2 ^ 15) 16
          (by omega) (by omega)]
    omega
  · rw [and_mask_arith s 3 21 0xE00000 (by norm_num), Nat.shiftRight_eq_div_pow]
    omega
  · rw [and_mask_arith s 5 16 0x1F0000 (by norm_num), Nat.shiftRight_eq_div_pow]
    omega
  · rw [and_mask_arith s 15 0 0x7FFF (by norm_num)]
    omega
  · rw [lor_eq_add_of_lt b (e * 2 ^ 15) 20 (by omega) (by omega),
        lor_eq_add_of_lt (b + e * 2 ^ 15) r 15 (by omega) (by omega)]
    omega

/-- Bridging lemma: snes_to_pc on an SA1ROM at a `Nat` SNES address that
satisfies the mapped-branch condition equals the `Nat`-level inverse
formula (bank table lookup plus shifted fields) plus `header_size`. -/
theorem snes_to_pc_sa1_nat (rom : ROM) (hm : rom.mapper = .sa1rom) (s : Nat)
    (hcond : s &&& 0x408000 = 0x008000) :
    rom.snes_to_pc (s : Int) =
      (sa1banks.getD ((s &&& 0xE00000) >>> 21) 0 |||
        (((s &&& 0x1F0000) >>> 1 : Nat) : Int) ||| ((s &&& 0x7FFF : Nat) : Int)) +
        (rom.header_size : Int) := by
  unfold ROM.snes_to_pc
  rw [hm]
  dsimp only
  rw [if_pos (by exact_mod_cast hcond)]
  rfl

/-- C6 counterexample: on an SA1ROM with a 9 MiB payload, PC offset
0x800000 is in the payload range and its 0x700000-masked value 0 matches
bank base 0 (`sa1banks[0]`), yet the round trip collapses to 0 because
bit 23 is lost by the bank mask; the claim as stated (round trip for every
matched payload offset) is therefore false. -/
theorem C6_counterexample :
    romC6.mapper = .sa1rom ∧
    (romC6.header_size : Int) ≤ 0x800000 ∧
    (0x800000 : Int) < (romC6.header_size : Int) + (romC6.size : Int) ∧
    ((0x800000 : Int) - (romC6.header_size : Int)) &&& 0x700000 ∈ sa1banks ∧
    romC6.snes_to_pc (romC6.pc_to_snes 0x800000) ≠ 0x800000 := by decide

/-- C6 (amended): on an SA1ROM, for every PC offset p in the payload range
whose unheadered value is below 0x800000 and whose 0x700000-masked value
matches one of the 8 fixed SA-1 bank bases, the round trip reproduces p;
and for every payload offset whose masked value matches none of the bank
bases, pc_to_snes returns the -1 sentinel (structs.cpp:148-153, 174-181).
The bound p - header_size < 0x800000 is forced by the counterexample. -/
theorem C6_sa1rom_roundtrip (rom : ROM) (p : Int)
    (hm : rom.mapper = .sa1rom)
    (h1 : (rom.header_size : Int) ≤ p)
    (h2 : p < (rom.header_size : Int) + (rom.size : Int)) :
    (((p - (rom.header_size : Int)) &&& 0x700000 ∈ sa1banks ∧
        p - (rom.header_size : Int) < 0x800000) →
      rom.snes_to_pc (rom.pc_to_snes p) = p) ∧
    ((p - (rom.header_size : Int)) &&& 0x700000 ∉ sa1banks →
      rom.pc_to_snes p = -1) := by
  obtain ⟨n, hn⟩ : ∃ n : Nat, p = (n : Int) + (rom.header_size : Int) :=
    ⟨(p - (rom.header_size : Int)).toNat, by omega⟩
  have hsub : p - (rom.header_size : Int) = (n : Int) := by omega
  constructor
  · rintro ⟨hmem, hlt⟩
    rw [hsub] at hmem
    have hn8 : n < 0x800000 := by omega
    obtain ⟨d, e, r, hdec, hd8, he, hr⟩ :
        ∃ d e r, n = d * 2 ^ 20 + e * 2 ^ 15 + r ∧ d < 8 ∧ e < 32 ∧ r < 2 ^ 15 :=
      ⟨n / 2 ^ 20, n / 2 ^ 15 % 32, n % 2 ^ 15, by omega, by omega, by omega, by omega⟩
    have hmA : n &&& 0x700000 = d * 2 ^ 20 := by
      rw [and_mask_arith n 3 20 0x700000 (by norm_num)]; omega
    have hmAI : ((n : Int) &&& 0x700000) = ((d * 2 ^ 20 : Nat) : Int) := by exact_mod_cast hmA
    rw [hmAI] at hmem
    rw [hn]
    interval_cases d
    · obtain ⟨c1, c2, c3, c4, c5⟩ :=
        sa1_core n 0 e r 0 0x000000
          (0x8000 ||| (0 <<< 21) ||| ((n &&& 0x0F8000) <<< 1) ||| (n &&& 0x7FFF))
          hdec (by norm_num) he hr (by norm_num) (by norm_num) rfl
      have hpc : rom.pc_to_snes ((n : Int) + (rom.header_size : Int)) =
          (((0x8000 ||| (0 <<< 21) ||| ((n &&& 0x0F8000) <<< 1) ||| (n &&& 0x7FFF) : Nat)) : Int) := by
        unfold ROM.pc_to_snes
        rw [hm]
        dsimp only
        rw [add_sub_cancel_right]
        have hfind : (List.range 8).find?
            (fun i => sa1banks.getD i 0 == (n : Int) &&& 0x700000) = some 0 := by
          simp only [hmAI]
          decide
        rw [hfind]
        rfl
      rw [hpc, snes_to_pc_sa1_nat rom hm _ c1, c2, c3, c4]
      have hg : sa1banks.getD 0 0 = (0x000000 : Int) := rfl
      rw [hg]
      have hb : ((0x000000 : Int) ||| ((e * 2 ^ 15 : Nat) : Int) ||| ((r : Nat) : Int))
          = ((n : Nat) : Int) := by exact_mod_cast c5
      rw [hb]
    · obtain ⟨c1, c2, c3, c4, c5⟩ :=
        sa1_core n 1 e r 1 0x100000
          (0x8000 ||| (1 <<< 21) ||| ((n &&& 0x0F8000) <<< 1) ||| (n &&& 0x7FFF))
          hdec (by norm_num) he hr (by norm_num) (by norm_num) rfl
      have hpc : rom.pc_to_snes ((n : Int) + (rom.header_size : Int)) =
          (((0x8000 ||| (1 <<< 21) ||| ((n &&& 0x0F8000) <<< 1) ||| (n &&& 0x7FFF) : Nat)) : Int) := by
        unfold ROM.pc_to_snes
        rw [hm]
        dsimp only
        rw [add_sub_cancel_right]
        have hfind : (List.range 8).find?
            (fun i => sa1banks.getD i 0 == (n : Int) &&& 0x700000) = some 1 := by
          simp only [hmAI]
          decide
        rw [hfind]
        rfl
      rw [hpc, snes_to_pc_sa1_nat rom hm _ c1, c2, c3, c4]
      have hg : sa1banks.getD 1 0 = (0x100000 : Int) := rfl
      rw [hg]
      have hb : ((0x100000 : Int) ||| ((e * 2 ^ 15 : Nat) : Int) ||| ((r : Nat) : Int))
          = ((n : Nat) : Int) := by exact_mod_cast c5
      rw [hb]
    · obtain ⟨c1, c2, c3, c4, c5⟩ :=
        sa1_core n 2 e r 4 0x200000
          (0x8000 ||| (4 <<< 21) ||| ((n &&& 0x0F8000) <<< 1) ||| (n &&& 0x7FFF))
          hdec (by norm_num) he hr (by norm_num) (by norm_num) rfl
      have hpc : rom.pc_to_snes ((n : Int) + (rom.header_size : Int)) =
          (((0x8000 ||| (4 <<< 21) ||| ((n &&& 0x0F8000) <<< 1) ||| (n &&& 0x7FFF) : Nat)) : Int) := by
        unfold ROM.pc_to_snes
        rw [hm]
        dsimp only
        rw [add_sub_cancel_right]
        have hfind : (List.range 8).find?
            (fun i => sa1banks.getD i 0 == (n : Int) &&& 0x700000) = some 4 := by
          simp only [hmAI]
          decide
        rw [hfind]
        rfl
      rw [hpc, snes_to_pc_sa1_nat rom hm _ c1, c2, c3, c4]
      have hg : sa1banks.getD 4 0 = (0x200000 : Int) := rfl
      rw [hg]
      have hb : ((0x200000 : Int) ||| ((e * 2 ^ 15 : Nat) : Int) ||| ((r : Nat) : Int))
          = ((n : Nat) : Int) := by exact_mod_cast c5
      rw [hb]
    · obtain ⟨c1, c2, c3, c4, c5⟩ :=
        sa1_core n 3 e r 5 0x300000
          (0x8000 ||| (5 <<< 21) ||| ((n &&& 0x0F8000) <<< 1) ||| (n &&& 0x7FFF))
          hdec (by norm_num) he hr (by norm_num) (by norm_num) rfl
      have hpc : rom.pc_to_snes ((n : Int) + (rom.header_size : Int)) =
          (((0x8000 ||| (5 <<< 21) ||| ((n &&& 0x0F8000) <<< 1) ||| (n &&& 0x7FFF) : Nat)) : Int) := by
        unfold ROM.pc_to_snes
        rw [hm]
        dsimp only
        rw [add_sub_cancel_right]
        have hfind : (List.range 8).find?
            (fun i => sa1banks.getD i 0 == (n : Int) &&& 0x700000) = some 5 := by
          simp only [hmAI]
          decide
        rw [hfind]
        rfl
      rw [hpc, snes_to_pc_sa1_nat rom hm _ c1, c2, c3, c4]
      have hg : sa1banks.getD 5 0 = (0x300000 : Int) := rfl
      rw [hg]
      have hb : ((0x300000 : Int) ||| ((e * 2 ^ 15 : Nat) : Int) ||| ((r : Nat) : Int))
          = ((n : Nat) : Int) := by exact_mod_cast c5
      rw [hb]
    · exact absurd hmem (by decide)
    · exact absurd hmem (by decide)
    · exact absurd hmem (by decide)
    · exact absurd hmem (by decide)
  · intro hnot
    rw [hsub] at hnot
    unfold ROM.pc_to_snes
    rw [hm]
    dsimp only
    rw [hn, add_sub_cancel_right]
    have hf : (List.range 8).find?
        (fun i => sa1banks.getD i 0 == (n : Int) &&& 0x700000) = none := by
      rw [List.find?_eq_none]
      intro x hx
      simp only [beq_iff_eq]
      intro hEq
      apply hnot
      rw [← hEq]
      have hx8 : x < 8 := List.mem_range.mp hx
      interval_cases x <;> decide
    rw [hf]

/-- C6 witness: a headered 4 MiB SA1ROM round-trips a matched payload
offset, and a payload offset in the unmatched 0x400000 bank yields the -1
sentinel. -/
theorem C6_sa1rom_roundtrip_witness :
    romW6.snes_to_pc (romW6.pc_to_snes (512 + 0x123456)) = 512 + 0x123456 ∧
    romC6.pc_to_snes 0x456789 = -1 :=
  ⟨(C6_sa1rom_roundtrip romW6 (512 + 0x123456) rfl (by decide) (by decide)).1
      ⟨by decide, by decide⟩,
   (C6_sa1rom_roundtrip romC6 0x456789 rfl (by decide) (by decide)).2 (by decide)⟩
